import Mathlib

/-!
Verification of the MarketPulse signal-generation engine (`signal_engine.py`)
against its natural-language specification.

Modelling conventions:
* Python floats are modelled as exact rationals (`ℚ`); every arithmetic
  operation used by the engine (add, sub, mul, div, min, max, abs, compare)
  is exact on the inputs considered.
* Python `dict.get` with possibly-missing keys is modelled with `Option`.
* Python truthiness of a numeric value (`if x:`) is `x` present and nonzero
  (`truthy`); truthiness of a possibly-absent dict is `Option.isSome` of the
  corresponding record; truthiness of an optional bool is "present and true".
* Python numeric string formatting (e.g. two decimal places) is abstracted by
  `fmt`, which prints the exact rational; no property verified here depends
  on the digits of a formatted number.
-/

namespace MarketPulse

/- The Batteries rational-number operations are irreducible by default;
unseal them so that concrete engine runs reduce by `rfl` and `decide`. -/
unseal Rat.add Rat.mul Rat.sub Rat.inv Rat.ofScientific

/-- Python truthiness of an optional number: present and nonzero. -/
def truthy : Option ℚ → Bool
  | none => false
  | some x => x != 0

/-- Python truthiness of an optional boolean: present and `True`. -/
def btruthy : Option Bool → Bool
  | some true => true
  | _ => false

/-- Stand-in for Python numeric string formatting (`.2f`, `.1f`, `.0f`):
prints the exact rational instead of rounding to fixed decimals.  No claim
verified in this file depends on the digits produced. -/
def fmt (q : ℚ) : String :=
  if q.den = 1 then toString q.num else toString q.num ++ "/" ++ toString q.den

/-- Character-list prefix test, used for substring search. -/
def startsWithChars : List Char → List Char → Bool
  | _, [] => true
  | [], _ :: _ => false
  | a :: as, b :: bs => (a = b) && startsWithChars as bs

/-- Character-list substring test. -/
def containsChars : List Char → List Char → Bool
  | [], needle => needle.isEmpty
  | a :: rest, needle => startsWithChars (a :: rest) needle || containsChars rest needle

/-- `strMentions hay needle` : `needle` occurs as a substring of `hay`. -/
def strMentions (hay needle : String) : Bool :=
  containsChars hay.toList needle.toList

/-- `technical_data['macd']` sub-dict: line, signal line, histogram. -/
structure MacdData where
  line : Option ℚ
  signalLine : Option ℚ
  histogram : Option ℚ

/-- `technical_data['bollinger']` sub-dict (only the keys the engine reads). -/
structure BollingerData where
  percentB : Option ℚ
  upper : Option ℚ
  lower : Option ℚ

/-- `technical_data['stochastic']` sub-dict. -/
structure StochasticData where
  k : Option ℚ
  d : Option ℚ

/-- `technical_data['adx']` sub-dict. -/
structure AdxData where
  adx : Option ℚ
  diPlus : Option ℚ
  diMinus : Option ℚ

/-- `technical_data['moving_averages']` sub-dict. -/
structure MaData where
  sma20 : Option ℚ
  sma50 : Option ℚ
  aboveSma20 : Option Bool
  aboveSma50 : Option Bool

/-- The `technical_data` argument of `SignalEngine.generate_signal`.
An absent sub-dict (`.get(key, {})` returning `{}`, which is falsy) is
`none`; a present nonempty sub-dict is `some` with independently optional
fields.  `macd` needs no emptiness test in the source, so it is a plain
record of optional fields. -/
structure TechnicalData where
  rsi : Option ℚ
  macd : MacdData
  bollinger : Option BollingerData
  stochastic : Option StochasticData
  adx : Option AdxData
  movingAverages : Option MaData
  atr : Option ℚ

/-- Technical data with every field absent. -/
def emptyTech : TechnicalData :=
  { rsi := none, macd := { line := none, signalLine := none, histogram := none },
    bollinger := none, stochastic := none, adx := none, movingAverages := none,
    atr := none }

/-- The `sentiment_data` argument: `success` flag plus the nested
`sentiment` dict fields `overall_score` and `label`. -/
structure SentimentData where
  success : Bool
  overallScore : Option ℚ
  label : Option String

/-- The `price_data` argument (`none` models Python `None` or an empty,
falsy dict). -/
structure PriceData where
  price : Option ℚ
  changePercent : Option ℚ
  volume : Option ℚ

/-- Fields of `stats_data['data']` read by the engine. -/
structure StatsFields where
  beta : Option ℚ
  trailingPE : Option ℚ
  debtToEquity : Option ℚ
  fiftyTwoWeekHigh : Option ℚ
  fiftyTwoWeekLow : Option ℚ
  averageVolume : Option ℚ

/-- The `stats_data` argument: `success` flag plus the `data` sub-dict. -/
structure StatsData where
  success : Bool
  data : StatsFields

/-- The `news_data` argument. -/
structure NewsData where
  success : Bool
  count : Option ℕ

/-- `stats_data['data']` when `stats_data and stats_data.get('success')`,
else all-absent fields (mirrors lines 83-90 and 489-492). -/
def effStats : Option StatsData → StatsFields
  | some s =>
    if s.success then s.data
    else { beta := none, trailingPE := none, debtToEquity := none,
           fiftyTwoWeekHigh := none, fiftyTwoWeekLow := none, averageVolume := none }
  | none =>
    { beta := none, trailingPE := none, debtToEquity := none,
      fiftyTwoWeekHigh := none, fiftyTwoWeekLow := none, averageVolume := none }

/-- `SIGNAL_RULES` from `config.py`. -/
structure Rules where
  buySentimentThreshold : ℚ
  buyRsiMax : ℚ
  sellSentimentThreshold : ℚ
  sellRsiMin : ℚ

/-- Default `SIGNAL_RULES` values (`config.py` lines 27-38). -/
def defaultRules : Rules :=
  { buySentimentThreshold := (3/10), buyRsiMax := 30,
    sellSentimentThreshold := -(3/10), sellRsiMin := 70 }

/-- A scoring category result: score increment plus appended reason strings. -/
abbrev Part := ℚ × List String

/-- Fold a list of category results into a total score and concatenated
reason list, preserving order. -/
def combineParts : List Part → Part
  | [] => (0, [])
  | p :: rest =>
    let r := combineParts rest
    (p.1 + r.1, p.2 ++ r.2)

/-- Buy category 1, sentiment (lines 132-137). -/
def sentimentBuy (thr score : ℚ) : Part :=
  if score ≥ thr then
    ((20/100), ["✓ Strong positive sentiment (" ++ fmt score ++ ")"])
  else if score ≥ (1/10) then
    ((20/100) * (5/10), ["○ Moderately positive sentiment (" ++ fmt score ++ ")"])
  else (0, [])

/-- Buy category 2, RSI oversold tiers (lines 140-149).  `rsi is not None`
is an exact presence test, not truthiness. -/
def rsiBuy : Option ℚ → Part
  | none => (0, [])
  | some r =>
    if r < 30 then ((25/100), ["✓ RSI strongly oversold (" ++ fmt r ++ " - great entry point)"])
    else if r < 40 then ((25/100) * (7/10), ["○ RSI moderately oversold (" ++ fmt r ++ ")"])
    else if r < 50 then ((25/100) * (3/10), ["○ RSI neutral-low (" ++ fmt r ++ ")"])
    else (0, [])

/-- Buy category 3, MACD bullish crossover plus histogram bonus
(lines 152-165).  The histogram test `if macd_histogram and macd_histogram > 0`
uses truthiness. -/
def macdBuy : Option ℚ → Option ℚ → Option ℚ → Part
  | some l, some s, hist =>
    if l > s then
      let d := l - s
      let base : Part :=
        if d > (5/10) then ((25/100), ["✓ Strong MACD bullish crossover (Δ " ++ fmt d ++ ")"])
        else ((25/100) * (6/10), ["○ MACD bullish (" ++ fmt d ++ ")"])
      let hb : Part :=
        if truthy hist ∧ hist.getD 0 > 0 then
          ((5/100), ["✓ MACD histogram positive (" ++ fmt (hist.getD 0) ++ ")"])
        else (0, [])
      (base.1 + hb.1, base.2 ++ hb.2)
    else (0, [])
  | none, _, _ => (0, [])
  | some _, none, _ => (0, [])

/-- `position_in_range` (lines 169-170 and 282-283):
`(price - low) / (high - low)` when the range is positive, else `0.5`. -/
def positionInRange (price hi lo : ℚ) : ℚ :=
  if hi - lo > 0 then (price - lo) / (hi - lo) else (5/10)

/-- Buy category 4, price momentum versus the 52-week range (lines 168-177).
The guard uses truthiness of all three values. -/
def momentumBuy (cp hi lo : Option ℚ) : Part :=
  if truthy cp ∧ truthy hi ∧ truthy lo then
    let pos := positionInRange (cp.getD 0) (hi.getD 0) (lo.getD 0)
    if pos < (3/10) then
      ((15/100), ["✓ Near 52-week low (" ++ fmt (pos * 100) ++ "% of range)"])
    else if pos < (5/10) then
      ((15/100) * (5/10), ["○ Below midpoint of 52-week range (" ++ fmt (pos * 100) ++ "%)"])
    else (0, [])
  else (0, [])

/-- Buy category 5, valuation (lines 180-186); presence test is `is not None`. -/
def valueBuy : Option ℚ → Part
  | none => (0, [])
  | some p =>
    if p < 15 then ((10/100), ["✓ Attractive P/E ratio (" ++ fmt p ++ ")"])
    else if p < 25 then ((10/100) * (5/10), ["○ Reasonable P/E ratio (" ++ fmt p ++ ")"])
    else (0, [])

/-- Buy category 6, volume confirmation (lines 189-191). -/
def volumeBuy (vol avgVol : Option ℚ) : Part :=
  if truthy vol ∧ truthy avgVol ∧ vol.getD 0 > avgVol.getD 0 * (15/10) then
    ((5/100), ["✓ High volume confirmation (" ++ fmt (vol.getD 0 / avgVol.getD 0) ++ "x avg)"])
  else (0, [])

/-- Secondary buy bonus, Bollinger %B (lines 197-204); `percent_b` defaults
to `0.5` when the key is missing from a nonempty dict. -/
def bollingerBuy (boll : Option BollingerData) (cp : Option ℚ) : Part :=
  match boll with
  | some b =>
    if truthy cp then
      let pb := b.percentB.getD (5/10)
      if pb < (2/10) then ((5/100), ["✓ BB oversold (B%=" ++ fmt (pb * 100) ++ "%)"])
      else if pb < (4/10) then ((2/100), ["○ BB below midpoint"])
      else (0, [])
    else (0, [])
  | none => (0, [])

/-- Secondary buy bonus, stochastic %K (lines 207-214).  The source tests
`if stoch_k and stoch_k < 20`, so a present value of exactly `0.0` is
treated as missing (truthiness). -/
def stochasticBuy : Option StochasticData → Part
  | some s =>
    if truthy s.k ∧ s.k.getD 0 < 20 then
      ((5/100), ["✓ Stochastic oversold (" ++ fmt (s.k.getD 0) ++ ")"])
    else if truthy s.k ∧ s.k.getD 0 < 40 then
      ((2/100), ["○ Stochastic low (" ++ fmt (s.k.getD 0) ++ ")"])
    else (0, [])
  | none => (0, [])

/-- Secondary buy bonus, moving-average stacking (lines 217-226). -/
def maBuy : Option MaData → Part
  | some m =>
    if btruthy m.aboveSma20 ∧ btruthy m.aboveSma50 then
      ((5/100), ["✓ Price above SMA 20 & 50"])
    else if btruthy m.aboveSma20 then
      ((2/100), ["○ Price above SMA 20"])
    else (0, [])
  | none => (0, [])

/-- Secondary buy bonus, ADX uptrend (lines 229-236). -/
def adxBuy : Option AdxData → Part
  | some a =>
    if truthy a.adx ∧ a.adx.getD 0 > 25 ∧ truthy a.diPlus ∧ truthy a.diMinus ∧
        a.diPlus.getD 0 > a.diMinus.getD 0 then
      ((5/100), ["✓ Strong uptrend (ADX=" ++ fmt (a.adx.getD 0) ++ ")"])
    else (0, [])
  | none => (0, [])

/-- Sell category 1, sentiment (lines 253-258). -/
def sentimentSell (thr score : ℚ) : Part :=
  if score ≤ thr then
    ((20/100), ["⚠️ Negative sentiment (" ++ fmt score ++ ")"])
  else if score ≤ -(1/10) then
    ((20/100) * (5/10), ["○ Moderately negative sentiment (" ++ fmt score ++ ")"])
  else (0, [])

/-- Sell category 2, RSI overbought tiers (lines 261-267). -/
def rsiSell : Option ℚ → Part
  | none => (0, [])
  | some r =>
    if r > 70 then ((25/100), ["⚠️ RSI overbought (" ++ fmt r ++ " - take profits)"])
    else if r > 60 then ((25/100) * (6/10), ["○ RSI moderately high (" ++ fmt r ++ ")"])
    else (0, [])

/-- Sell category 3, MACD bearish crossover (lines 270-278). -/
def macdSell : Option ℚ → Option ℚ → Part
  | some l, some s =>
    if l < s then
      let d := abs (l - s)
      if d > (5/10) then ((25/100), ["⚠️ Strong MACD bearish crossover (Δ -" ++ fmt d ++ ")"])
      else ((25/100) * (6/10), ["○ MACD bearish (Δ -" ++ fmt d ++ ")"])
    else (0, [])
  | none, _ => (0, [])
  | some _, none => (0, [])

/-- Sell category 4, overextension versus the 52-week range (lines 281-290). -/
def overextSell (cp hi lo : Option ℚ) : Part :=
  if truthy cp ∧ truthy hi ∧ truthy lo then
    let pos := positionInRange (cp.getD 0) (hi.getD 0) (lo.getD 0)
    if pos > (9/10) then
      ((15/100), ["⚠️ Near 52-week high (" ++ fmt (pos * 100) ++ "% - overbought)"])
    else if pos > (7/10) then
      ((15/100) * (5/10), ["○ Above 52-week midpoint (" ++ fmt (pos * 100) ++ "%)"])
    else (0, [])
  else (0, [])

/-- Sell category 5, risk factors (lines 293-302): beta and debt/equity each
contribute half the risk weight, and fired factors are joined into a single
reason string. -/
def riskSell (beta dte : Option ℚ) : Part :=
  let f1 := truthy beta ∧ beta.getD 0 > (15/10)
  let f2 := truthy dte ∧ dte.getD 0 > (20/10)
  let factors :=
    (if f1 then ["High volatility (β=" ++ fmt (beta.getD 0) ++ ")"] else []) ++
    (if f2 then ["High debt/equity (" ++ fmt (dte.getD 0) ++ ")"] else [])
  ((if f1 then (15/100) * (5/10) else 0) + (if f2 then (15/100) * (5/10) else 0),
   if factors = [] then [] else ["⚠️ Risk: " ++ String.intercalate ", " factors])

/-- Secondary sell bonus, Bollinger %B (lines 308-315). -/
def bollingerSell (boll : Option BollingerData) (cp : Option ℚ) : Part :=
  match boll with
  | some b =>
    if truthy cp then
      let pb := b.percentB.getD (5/10)
      if pb > (8/10) then ((5/100), ["⚠️ BB overbought (B%=" ++ fmt (pb * 100) ++ "%)"])
      else if pb > (6/10) then ((2/100), ["○ BB above midpoint"])
      else (0, [])
    else (0, [])
  | none => (0, [])

/-- Secondary sell bonus, stochastic %K (lines 318-325), with the same
truthiness test as the buy side. -/
def stochasticSell : Option StochasticData → Part
  | some s =>
    if truthy s.k ∧ s.k.getD 0 > 80 then
      ((5/100), ["⚠️ Stochastic overbought (" ++ fmt (s.k.getD 0) ++ ")"])
    else if truthy s.k ∧ s.k.getD 0 > 60 then
      ((2/100), ["○ Stochastic high (" ++ fmt (s.k.getD 0) ++ ")"])
    else (0, [])
  | none => (0, [])

/-- Secondary sell bonus, price below moving averages (lines 328-337); the
source compares with `is False`, distinguishing `False` from `None`. -/
def maSell : Option MaData → Part
  | some m =>
    if m.aboveSma20 = some false ∧ m.aboveSma50 = some false then
      ((5/100), ["⚠️ Price below SMA 20 & 50"])
    else if m.aboveSma20 = some false then
      ((2/100), ["○ Price below SMA 20"])
    else (0, [])
  | none => (0, [])

/-- Secondary sell bonus, ADX downtrend (lines 340-347). -/
def adxSell : Option AdxData → Part
  | some a =>
    if truthy a.adx ∧ a.adx.getD 0 > 25 ∧ truthy a.diPlus ∧ truthy a.diMinus ∧
        a.diMinus.getD 0 > a.diPlus.getD 0 then
      ((5/100), ["⚠️ Strong downtrend (ADX=" ++ fmt (a.adx.getD 0) ++ ")"])
    else (0, [])
  | none => (0, [])

/-- `_calculate_risk` (lines 429-451): integer risk score from beta,
debt/equity and extreme RSI, then a three-way classification.  All three
tests use truthiness. -/
def calcRisk (beta dte rsi : Option ℚ) : String :=
  let s1 : ℕ :=
    if truthy beta ∧ beta.getD 0 > (15/10) then 2
    else if truthy beta ∧ beta.getD 0 > (12/10) then 1
    else 0
  let s2 : ℕ :=
    if truthy dte ∧ dte.getD 0 > (20/10) then 2
    else if truthy dte ∧ dte.getD 0 > (10/10) then 1
    else 0
  let s3 : ℕ :=
    if truthy rsi ∧ (rsi.getD 0 > 75 ∨ rsi.getD 0 < 25) then 1 else 0
  let riskScore := s1 + s2 + s3
  if riskScore ≥ 4 then "High"
  else if riskScore ≥ 2 then "Medium"
  else "Low"

/-- The signal decision table (lines 352-400): returns
`(signal, confidence, branch reasons, risk level)`. -/
def resolveBranch (buyScore sellScore : ℚ) (buyConds sellConds : List String)
    (beta dte rsi : Option ℚ) : String × ℚ × List String × String :=
  if buyScore ≥ (65/100) ∧ sellScore < (3/10) then
    ("BUY", min (buyScore * (85/100) + (15/100)) (95/100), buyConds, calcRisk beta dte rsi)
  else if sellScore ≥ (60/100) ∧ buyScore < (3/10) then
    ("SELL", min (sellScore * (85/100) + (15/100)) (95/100), sellConds, "High")
  else if buyScore > sellScore ∧ buyScore ≥ (45/100) then
    ("BUY", min ((55/100) + (buyScore - sellScore) * (5/10)) (75/100), buyConds.take 3,
     calcRisk beta dte rsi)
  else if sellScore > buyScore ∧ sellScore ≥ (45/100) then
    ("SELL", min ((55/100) + (sellScore - buyScore) * (5/10)) (75/100), sellConds.take 3, "High")
  else
    ("HOLD",
     (if abs (buyScore - sellScore) < (1/10) then ((35/100) : ℚ)
      else (45/100) + abs (buyScore - sellScore) * (2/10)),
     [(if abs (buyScore - sellScore) < (1/10) then
        "⊙ Highly uncertain - signals are balanced"
       else "⊙ Mixed signals - wait for clearer direction")] ++
       (match buyConds with
        | [] => []
        | c :: _ => ["Bullish: " ++ c]) ++
       (match sellConds with
        | [] => []
        | c :: _ => ["Bearish: " ++ c]),
     calcRisk beta dte rsi)

/-- The swing-trade recommendation record built by
`_calculate_swing_trade_levels`. -/
structure SwingPlan where
  action : String
  currentPrice : ℚ
  entryPrice : Option ℚ
  targetPrice : Option ℚ
  stopLoss : Option ℚ
  riskReward : Option ℚ
  holdingPeriod : Option String
  notes : List String

/-- Python `max` over a nonempty list (`max(targets)`, `max(stops)`);
returns `0` on `[]`, a case the source never reaches. -/
def listMax : List ℚ → ℚ
  | [] => 0
  | [x] => x
  | x :: y :: rest => max x (listMax (y :: rest))

/-- BUY entry price and its note (lines 508-528): market entry when RSI is
truthy and below 40 or price is within 2% above the lower Bollinger Band,
else a pullback to `min(price × 0.98, SMA-20)` when SMA-20 is truthy. -/
def buyEntry (price : ℚ) (tech : TechnicalData) : ℚ × List String :=
  let bbLower := match tech.bollinger with
    | some b => b.lower
    | none => none
  let sma20 := match tech.movingAverages with
    | some m => m.sma20
    | none => none
  if truthy tech.rsi ∧ tech.rsi.getD 0 < 40 then
    (price, ["✓ Oversold - enter at market price"])
  else if truthy bbLower ∧ price < bbLower.getD 0 * (102/100) then
    (price, ["✓ Near support - enter at market price"])
  else
    let pullback :=
      if truthy sma20 then min (price * (98/100)) (sma20.getD 0) else price * (98/100)
    (pullback, ["○ Wait for pullback to $" ++ fmt pullback])

/-- BUY target price (lines 530-548): max of the candidate targets, else a
confidence-scaled 8-16% gain. -/
def buyTarget (price : ℚ) (tech : TechnicalData) (hi52 : Option ℚ) (conf : ℚ) : ℚ :=
  let bbUpper := match tech.bollinger with
    | some b => b.upper
    | none => none
  let sma50 := match tech.movingAverages with
    | some m => m.sma50
    | none => none
  let targets :=
    (if truthy bbUpper then [bbUpper.getD 0] else []) ++
    (if truthy sma50 ∧ sma50.getD 0 > price then [sma50.getD 0] else []) ++
    (if truthy hi52 then [price + (hi52.getD 0 - price) * (5/10)] else [])
  if targets ≠ [] then listMax targets
  else price * (1 + ((8/100) + conf * (8/100)))

/-- BUY stop loss (lines 550-568): max of the candidate stops (the ATR stop
is always present), floored at `entry × 0.92`. -/
def buyStop (price entry atrValue : ℚ) (tech : TechnicalData) (lo52 : Option ℚ) : ℚ :=
  let bbLower := match tech.bollinger with
    | some b => b.lower
    | none => none
  let sma20 := match tech.movingAverages with
    | some m => m.sma20
    | none => none
  let stops :=
    [entry - atrValue * 2] ++
    (if truthy bbLower then [bbLower.getD 0 * (98/100)] else []) ++
    (if truthy sma20 ∧ sma20.getD 0 < price then [sma20.getD 0 * (97/100)] else []) ++
    (if truthy lo52 then [max (lo52.getD 0 * (102/100)) (price * (90/100))] else [])
  let s0 := if stops ≠ [] then listMax stops else entry * (94/100)
  max s0 (entry * (92/100))

/-- The BUY branch of `_calculate_swing_trade_levels` (lines 508-587). -/
def buyPlan (price : ℚ) (tech : TechnicalData) (stats : Option StatsData)
    (conf : ℚ) : SwingPlan :=
  let sf := effStats stats
  let atrValue := if truthy tech.atr then tech.atr.getD 0 else price * (2/100)
  let ep := buyEntry price tech
  let entry := ep.1
  let target := buyTarget price tech sf.fiftyTwoWeekHigh conf
  let stop := buyStop price entry atrValue tech sf.fiftyTwoWeekLow
  let risk := entry - stop
  let reward := target - entry
  let rr := if risk > 0 then reward / risk else 0
  let rrNote : List String :=
    if rr ≥ 2 then ["✓ Excellent R:R ratio " ++ fmt rr ++ ":1"]
    else if rr ≥ (15/10) then ["○ Good R:R ratio " ++ fmt rr ++ ":1"]
    else ["⚠️ Low R:R ratio " ++ fmt rr ++ ":1 - wait for better setup"]
  { action := "BUY", currentPrice := price, entryPrice := some entry,
    targetPrice := some target, stopLoss := some stop, riskReward := some rr,
    holdingPeriod := some (if conf > (7/10) then "5-15 days" else "10-30 days"),
    notes := ep.2 ++ rrNote }

/-- The SELL branch of `_calculate_swing_trade_levels` (lines 589-599). -/
def sellPlan (price : ℚ) (tech : TechnicalData) : SwingPlan :=
  { action := "SELL", currentPrice := price, entryPrice := none,
    targetPrice := none, stopLoss := none, riskReward := none,
    holdingPeriod := none,
    notes :=
      ["⚠️ Exit long positions or avoid buying",
       "Consider taking profits if holding"] ++
      (if truthy tech.rsi ∧ tech.rsi.getD 0 > 70 then
        ["RSI overbought (" ++ fmt (tech.rsi.getD 0) ++ ") - sell at market"]
      else []) }

/-- The HOLD branch of `_calculate_swing_trade_levels` (lines 601-661). -/
def holdPlan (sig : String) (price : ℚ) (tech : TechnicalData)
    (stats : Option StatsData) : SwingPlan :=
  let sf := effStats stats
  let bbLower := match tech.bollinger with
    | some b => b.lower
    | none => none
  let bbUpper := match tech.bollinger with
    | some b => b.upper
    | none => none
  let sma20 := match tech.movingAverages with
    | some m => m.sma20
    | none => none
  let sma50 := match tech.movingAverages with
    | some m => m.sma50
    | none => none
  let rsi := tech.rsi
  let betterEntries :=
    (if truthy bbLower ∧ bbLower.getD 0 < price then
      ["Lower Bollinger Band at $" ++ fmt (bbLower.getD 0) ++ " (" ++
        fmt ((bbLower.getD 0 - price) / price * 100) ++ "%)"]
     else []) ++
    (if truthy sma20 ∧ sma20.getD 0 < price then
      ["SMA-20 support at $" ++ fmt (sma20.getD 0) ++ " (" ++
        fmt ((sma20.getD 0 - price) / price * 100) ++ "%)"]
     else []) ++
    (if truthy sma50 ∧ sma50.getD 0 < price then
      ["SMA-50 support at $" ++ fmt (sma50.getD 0) ++ " (" ++
        fmt ((sma50.getD 0 - price) / price * 100) ++ "%)"]
     else [])
  let rsiNotes : List String :=
    if truthy rsi ∧ 45 ≤ rsi.getD 0 ∧ rsi.getD 0 ≤ 55 then
      ["⊙ RSI neutral - wait for oversold (below 40) or overbought (above 60)"]
    else if truthy rsi ∧ 40 < rsi.getD 0 ∧ rsi.getD 0 < 45 then
      ["○ RSI approaching oversold - watch for entry near support"]
    else if truthy rsi ∧ 55 < rsi.getD 0 ∧ rsi.getD 0 < 60 then
      ["○ RSI approaching overbought - wait for pullback"]
    else []
  let macdNotes : List String :=
    match tech.macd.line, tech.macd.signalLine with
    | some l, some s =>
      if abs (l - s) < (3/10) then ["⊙ MACD near crossover - wait for clear signal"]
      else []
    | _, _ => []
  let volumeNotes : List String :=
    if betterEntries ≠ [] then
      ["**Better Entry Points:**"] ++
        (betterEntries.take 3).map (fun e => "  → Wait for pullback to " ++ e)
    else ["⊙ No clear support levels - wait for 3-5% pullback"]
  let breakoutNotes : List String :=
    if truthy bbUpper ∧ bbUpper.getD 0 > price then
      ["**Breakout Watch:**",
       "  → Buy on break above $" ++ fmt (bbUpper.getD 0) ++ " with volume"]
    else []
  let weekNotes : List String :=
    if truthy sf.fiftyTwoWeekHigh ∧ truthy sf.fiftyTwoWeekLow then
      let pos := positionInRange price (sf.fiftyTwoWeekHigh.getD 0)
        (sf.fiftyTwoWeekLow.getD 0)
      if pos < (3/10) then
        ["○ Near 52-week low (" ++ fmt (pos * 100) ++
          "% of range) - may bounce from support"]
      else if pos > (7/10) then
        ["○ Near 52-week high (" ++ fmt (pos * 100) ++ "% of range) - wait for pullback"]
      else
        ["○ Mid-range (" ++ fmt (pos * 100) ++ "% of 52w range) - wait for trend confirmation"]
    else []
  { action := sig, currentPrice := price, entryPrice := none,
    targetPrice := none, stopLoss := none, riskReward := none,
    holdingPeriod := none,
    notes := rsiNotes ++ macdNotes ++ volumeNotes ++ breakoutNotes ++ weekNotes }

/-- `_calculate_swing_trade_levels` (lines 453-663): returns `none` when the
current price is absent or zero (`if not current_price`), otherwise
dispatches on the resolved signal. -/
def calculateSwingTradeLevels (sig : String) (currentPrice : Option ℚ)
    (tech : TechnicalData) (stats : Option StatsData) (conf : ℚ) :
    Option SwingPlan :=
  if truthy currentPrice then
    let price := currentPrice.getD 0
    if sig = "BUY" then some (buyPlan price tech stats conf)
    else if sig = "SELL" then some (sellPlan price tech)
    else some (holdPlan sig price tech stats)
  else none

/-- The local variables extracted at the top of `generate_signal`
(lines 48-90). -/
structure Extracted where
  rsi : Option ℚ
  macdLine : Option ℚ
  signalLine : Option ℚ
  macdHistogram : Option ℚ
  bollinger : Option BollingerData
  stochastic : Option StochasticData
  adxData : Option AdxData
  maData : Option MaData
  sentimentScore : ℚ
  sentimentLabel : String
  currentPrice : Option ℚ
  priceChangePct : ℚ
  volume : Option ℚ
  avgVolume : Option ℚ
  fiftyTwoWeekHigh : Option ℚ
  fiftyTwoWeekLow : Option ℚ
  beta : Option ℚ
  peRatio : Option ℚ
  debtToEquity : Option ℚ

/-- Input extraction of `generate_signal` (lines 48-90): sentiment defaults
to score 0 and label neutral unless `success` is truthy; price fields
default when `price_data` is absent; statistics require the `success` flag. -/
def extract (tech : TechnicalData) (sd : SentimentData) (pd : Option PriceData)
    (st : Option StatsData) : Extracted :=
  let sf := effStats st
  { rsi := tech.rsi
    macdLine := tech.macd.line
    signalLine := tech.macd.signalLine
    macdHistogram := tech.macd.histogram
    bollinger := tech.bollinger
    stochastic := tech.stochastic
    adxData := tech.adx
    maData := tech.movingAverages
    sentimentScore := if sd.success then sd.overallScore.getD 0 else 0
    sentimentLabel := if sd.success then sd.label.getD "neutral" else "neutral"
    currentPrice := match pd with
      | some p => p.price
      | none => none
    priceChangePct := match pd with
      | some p => p.changePercent.getD 0
      | none => 0
    volume := match pd with
      | some p => p.volume
      | none => none
    avgVolume := sf.averageVolume
    fiftyTwoWeekHigh := sf.fiftyTwoWeekHigh
    fiftyTwoWeekLow := sf.fiftyTwoWeekLow
    beta := sf.beta
    peRatio := sf.trailingPE
    debtToEquity := sf.debtToEquity }

/-- The `metrics` dict of the result (lines 93-107). -/
structure Metrics where
  rsi : Option ℚ
  macd : Option ℚ
  macdSignal : Option ℚ
  macdHistogram : Option ℚ
  sentimentScore : ℚ
  sentimentLabel : String
  price : Option ℚ
  changePct : ℚ
  volume : Option ℚ
  avgVolume : Option ℚ
  beta : Option ℚ
  peRatio : Option ℚ
  debtToEquity : Option ℚ

/-- The dict returned by `SignalEngine.generate_signal` (lines 417-427). -/
structure SignalResult where
  signal : String
  confidence : ℚ
  reasons : List String
  metrics : Metrics
  riskLevel : String
  newsCount : ℕ
  buyScore : ℚ
  sellScore : ℚ
  swingTrade : Option SwingPlan

/-- Buy score and buy conditions (lines 119-239), categories in source
evaluation order; the four secondary bonuses are appended after the six
weighted categories. -/
def buyScoreOf (rules : Rules) (e : Extracted) : Part :=
  combineParts
    [sentimentBuy rules.buySentimentThreshold e.sentimentScore,
     rsiBuy e.rsi,
     macdBuy e.macdLine e.signalLine e.macdHistogram,
     momentumBuy e.currentPrice e.fiftyTwoWeekHigh e.fiftyTwoWeekLow,
     valueBuy e.peRatio,
     volumeBuy e.volume e.avgVolume,
     bollingerBuy e.bollinger e.currentPrice,
     stochasticBuy e.stochastic,
     maBuy e.maData,
     adxBuy e.adxData]

/-- Sell score and sell conditions (lines 241-350), in source order. -/
def sellScoreOf (rules : Rules) (e : Extracted) : Part :=
  combineParts
    [sentimentSell rules.sellSentimentThreshold e.sentimentScore,
     rsiSell e.rsi,
     macdSell e.macdLine e.signalLine,
     overextSell e.currentPrice e.fiftyTwoWeekHigh e.fiftyTwoWeekLow,
     riskSell e.beta e.debtToEquity,
     bollingerSell e.bollinger e.currentPrice,
     stochasticSell e.stochastic,
     maSell e.maData,
     adxSell e.adxData]

/-- `SignalEngine.generate_signal` (lines 23-427): missing-data warning,
scoring, decision table, price and news context, swing-trade planning. -/
def generateSignal (rules : Rules) (tech : TechnicalData) (sd : SentimentData)
    (nd : Option NewsData) (pd : Option PriceData) (st : Option StatsData) :
    SignalResult :=
  let e := extract tech sd pd st
  let missing :=
    (if e.rsi = none then ["RSI"] else []) ++
    (if e.macdLine = none ∨ e.signalLine = none then ["MACD"] else [])
  let missingReasons :=
    if missing = [] then []
    else ["⚠️ Missing data: " ++ String.intercalate ", " missing]
  let bp := buyScoreOf rules e
  let sp := sellScoreOf rules e
  let rb := resolveBranch bp.1 sp.1 bp.2 sp.2 e.beta e.debtToEquity e.rsi
  let priceCtx :=
    if truthy e.currentPrice then
      ["📊 Current: $" ++ fmt (e.currentPrice.getD 0) ++ " " ++
        (if e.priceChangePct ≥ 0 then "▲" else "▼") ++ " " ++
        fmt (abs e.priceChangePct) ++ "%"]
    else []
  let newsCount : ℕ := match nd with
    | some n => if n.success then n.count.getD 0 else 0
    | none => 0
  let newsCtx :=
    if newsCount > 0 then ["📰 " ++ toString newsCount ++ " recent articles analyzed"]
    else []
  { signal := rb.1
    confidence := rb.2.1
    reasons := missingReasons ++ rb.2.2.1 ++ priceCtx ++ newsCtx
    metrics :=
      { rsi := e.rsi, macd := e.macdLine, macdSignal := e.signalLine,
        macdHistogram := e.macdHistogram, sentimentScore := e.sentimentScore,
        sentimentLabel := e.sentimentLabel, price := e.currentPrice,
        changePct := e.priceChangePct, volume := e.volume,
        avgVolume := e.avgVolume, beta := e.beta, peRatio := e.peRatio,
        debtToEquity := e.debtToEquity }
    riskLevel := rb.2.2.2
    newsCount := newsCount
    buyScore := bp.1
    sellScore := sp.1
    swingTrade := calculateSwingTradeLevels rb.1 e.currentPrice tech st rb.2.1 }

/-- The record returned by the module-level `generate_signal` wrapper
(lines 675-711): the engine result plus `symbol` and `success` on the happy
path, or the fixed error record when the engine raises. -/
structure ModuleResult where
  success : Bool
  signal : String
  confidence : ℚ
  reasons : List String
  riskLevel : String
  symbol : String
  errorMsg : Option String
  engine : Option SignalResult

/-- Running the engine on possibly-`None` required arguments.  Within this
typed model the engine raise points are exactly Python `None` for the two
required dict arguments: `technical_data.get('rsi')` (line 49) and
`sentiment_data.get('success')` (line 62) raise `AttributeError` on `None`;
a structurally valid snapshot never raises (every remaining access is
guarded, and the one division at line 573 is behind `risk > 0`). -/
def engineRun (tech : Option TechnicalData) (sd : Option SentimentData)
    (nd : Option NewsData) (pd : Option PriceData) (st : Option StatsData) :
    Except String SignalResult :=
  match tech, sd with
  | some t, some s => Except.ok (generateSignal defaultRules t s nd pd st)
  | none, _ => Except.error "AttributeError: NoneType object has no attribute get"
  | some _, none => Except.error "AttributeError: NoneType object has no attribute get"

/-- Whether the engine computation raised. -/
def isErr : Except String SignalResult → Bool
  | Except.error _ => true
  | Except.ok _ => false

/-- Module-level `generate_signal(symbol, ...)` (lines 675-711): wraps the
engine call in try/except and returns the fixed error record on exception. -/
def generateSignalModule (symbol : String) (tech : Option TechnicalData)
    (sd : Option SentimentData) (nd : Option NewsData) (pd : Option PriceData)
    (st : Option StatsData) : ModuleResult :=
  match engineRun tech sd nd pd st with
  | Except.ok r =>
    { success := true, signal := r.signal, confidence := r.confidence,
      reasons := r.reasons, riskLevel := r.riskLevel, symbol := symbol,
      errorMsg := none, engine := some r }
  | Except.error e =>
    { success := false, signal := "ERROR", confidence := (5/10),
      reasons := ["Error: " ++ e], riskLevel := "High", symbol := symbol,
      errorMsg := some ("Signal generation error: " ++ e), engine := none }

/-! ## Helper lemmas -/

/-- In the decision table, the second and fourth rows are the only ones
resolving to SELL, and both hard-code risk level High. -/
theorem resolveBranch_sell_high (b s : ℚ) (bc sc : List String)
    (β δ r : Option ℚ) (h : (resolveBranch b s bc sc β δ r).1 = "SELL") :
    (resolveBranch b s bc sc β δ r).2.2.2 = "High" := by
  unfold resolveBranch at h ⊢
  split_ifs at h ⊢ <;>
    first
      | rfl
      | exact absurd (show "BUY" = "SELL" from h) (by decide)
      | exact absurd (show "HOLD" = "SELL" from h) (by decide)

/-- A guarded ratio with a nonpositive denominator candidate is zero. -/
theorem ratioGuard (e t s : ℚ) (h : e ≤ s) :
    (if e - s > 0 then (t - e) / (e - s) else 0) = 0 := by
  have hn : ¬ (e - s > 0) := by intro hc; linarith
  rw [if_neg hn]

/-- Degenerate 52-week range: the guarded position computation returns the
neutral value instead of dividing by zero. -/
theorem positionInRange_self (p x : ℚ) : positionInRange p x x = (5/10) := by
  unfold positionInRange
  have hn : ¬ (x - x > 0) := by simp
  rw [if_neg hn]

/-! ## Concrete inputs used by witnesses and counterexamples -/

/-- Sentiment input representing an absent/failed sentiment fetch. -/
def absentSentiment : SentimentData := ⟨false, none, none⟩

/-- Technical data for the inverted-market counterexample: strongly bullish
primaries with an upper Bollinger Band far below the price. -/
def invertedTech : TechnicalData :=
  { rsi := some 25,
    macd := { line := some 2, signalLine := some 1, histogram := some 1 },
    bollinger := some ⟨none, some 50, none⟩,
    stochastic := none, adx := none, movingAverages := none, atr := none }

/-- Strongly positive sentiment input. -/
def bullishSentiment : SentimentData := ⟨true, some (4/10), some "positive"⟩

/-- Price data with current price 100. -/
def priceHundred : PriceData := ⟨some 100, none, none⟩

/-- Technical data whose only feature is a lower Bollinger Band at 200,
far above the price, driving the stop above the entry. -/
def highBandTech : TechnicalData :=
  { rsi := none, macd := { line := none, signalLine := none, histogram := none },
    bollinger := some ⟨none, none, some 200⟩,
    stochastic := none, adx := none, movingAverages := none, atr := none }

/-- Overbought technical data: RSI 78, bearish MACD. -/
def overboughtTech : TechnicalData :=
  { rsi := some 78,
    macd := { line := some (2/10), signalLine := some (9/10), histogram := none },
    bollinger := none, stochastic := none, adx := none, movingAverages := none,
    atr := none }

/-- Strongly negative sentiment input. -/
def bearishSentiment : SentimentData := ⟨true, some (-(4/10)), some "negative"⟩

/-- High-risk fundamentals: beta 1.8, debt/equity 2.5. -/
def riskyStats : StatsData :=
  ⟨true, { beta := some (18/10), trailingPE := none, debtToEquity := some (25/10),
           fiftyTwoWeekHigh := none, fiftyTwoWeekLow := none,
           averageVolume := none }⟩

/-- Bullish MACD only (no RSI), for the pullback-entry counterexample. -/
def macdOnlyTech : TechnicalData :=
  { rsi := none,
    macd := { line := some 2, signalLine := some 1, histogram := some 1 },
    bollinger := none, stochastic := none, adx := none, movingAverages := none,
    atr := none }

/-- Strongly positive sentiment input (pullback-entry counterexample). -/
def bullishSentimentB : SentimentData := ⟨true, some (4/10), some "positive"⟩

/-- Price data with a pathological negative current price. -/
def negativePrice : PriceData := ⟨some (-100), none, none⟩

/-! ## Claims -/

/-- C1: for every snapshot in which every optional field is absent (no RSI,
no MACD, no price, no fundamentals, no news, sentiment absent or neutral),
`generate_signal` returns action HOLD with confidence exactly 0.35, risk
level Low, and no swing-trade plan. -/
theorem empty_snapshot_hold (sd : SentimentData)
    (h : sd.overallScore = none ∧ sd.label = none) :
    (generateSignal defaultRules emptyTech sd none none none).signal = "HOLD" ∧
    (generateSignal defaultRules emptyTech sd none none none).confidence = (35/100) ∧
    (generateSignal defaultRules emptyTech sd none none none).riskLevel = "Low" ∧
    (generateSignal defaultRules emptyTech sd none none none).swingTrade = none := by
  obtain ⟨succ, score, label⟩ := sd
  obtain ⟨h1, h2⟩ := h
  simp only at h1 h2
  subst h1
  subst h2
  cases succ
  · exact ⟨rfl, rfl, rfl, rfl⟩
  · exact ⟨rfl, rfl, rfl, rfl⟩

/-- C1 witness: the all-absent snapshot with a failed sentiment fetch. -/
theorem empty_snapshot_hold_witness :
    (absentSentiment.overallScore = none ∧ absentSentiment.label = none) ∧
    ((generateSignal defaultRules emptyTech absentSentiment none none none).signal = "HOLD" ∧
     (generateSignal defaultRules emptyTech absentSentiment none none none).confidence = (35/100) ∧
     (generateSignal defaultRules emptyTech absentSentiment none none none).riskLevel = "Low" ∧
     (generateSignal defaultRules emptyTech absentSentiment none none none).swingTrade = none) :=
  ⟨⟨rfl, rfl⟩, empty_snapshot_hold absentSentiment ⟨rfl, rfl⟩⟩

/-- C2 counterexample: a reachable BUY signal (score 0.75) whose swing plan
has entry 100 above the target candidate 50 with stop 96 below the entry;
the reported risk:reward ratio is −25/2, a negative value, refuting the
claim that it is reported as 0 or unavailable in that case. -/
theorem buy_ratio_negative_counterexample :
    (generateSignal defaultRules invertedTech bullishSentiment none
        (some priceHundred) none).signal = "BUY" ∧
    ((generateSignal defaultRules invertedTech bullishSentiment none
        (some priceHundred) none).swingTrade.map
      (fun p => (p.entryPrice, p.targetPrice, p.stopLoss, p.riskReward))).getD
        (none, none, none, none) =
      (some 100, some 50, some 96, some (-(125/10) : ℚ)) ∧
    ((-(125/10) : ℚ) < 0) := by
  refine ⟨by decide, by decide, by norm_num⟩

/-- C2 (amended): for every BUY swing plan, whenever the stop loss is at or
above the entry price the risk:reward ratio is reported as exactly 0 (the
division is guarded by a strictly positive denominator); the entry ≥ target
case is not guarded and can produce a negative ratio. -/
theorem buy_ratio_zero_on_inverted_stop (price : ℚ) (tech : TechnicalData)
    (stats : Option StatsData) (conf : ℚ)
    (h : (buyPlan price tech stats conf).entryPrice.getD 0 ≤
      (buyPlan price tech stats conf).stopLoss.getD 0) :
    (buyPlan price tech stats conf).riskReward = some 0 := by
  simp only [buyPlan, Option.getD_some] at h ⊢
  exact congrArg some (ratioGuard _ _ _ h)

/-- C2 witness: a concrete BUY plan whose stop (196) exceeds the entry
(100); the ratio is reported as 0. -/
theorem buy_ratio_zero_on_inverted_stop_witness :
    (buyPlan 100 highBandTech none (5/10)).entryPrice.getD 0 ≤
      (buyPlan 100 highBandTech none (5/10)).stopLoss.getD 0 ∧
    (buyPlan 100 highBandTech none (5/10)).riskReward = some 0 :=
  ⟨by decide,
   buy_ratio_zero_on_inverted_stop 100 highBandTech none (5/10) (by decide)⟩

/-- C3 counterexample: with RSI and MACD absent, the output reasons list
does contain a string mentioning the missing indicators: the missing-data
warning appended at line 117. -/
theorem missing_data_reason_counterexample :
    "⚠️ Missing data: RSI, MACD" ∈
      (generateSignal defaultRules emptyTech absentSentiment none none none).reasons ∧
    strMentions "⚠️ Missing data: RSI, MACD" "RSI" = true ∧
    strMentions "⚠️ Missing data: RSI, MACD" "MACD" = true := by
  refine ⟨by decide, by decide, by decide⟩

/-- C3 (amended): a scoring category whose required fields are absent
contributes 0 to the score and emits no category reason (shown here for the
RSI and MACD categories on both sides), but the engine does prepend a
missing-data warning naming RSI and MACD to the output reasons list. -/
theorem missing_category_contributes_zero (rules : Rules) (tech : TechnicalData)
    (sd : SentimentData) (nd : Option NewsData) (pd : Option PriceData)
    (st : Option StatsData) (h1 : tech.rsi = none) (h2 : tech.macd.line = none) :
    rsiBuy tech.rsi = (0, []) ∧ rsiSell tech.rsi = (0, []) ∧
    macdBuy tech.macd.line tech.macd.signalLine tech.macd.histogram = (0, []) ∧
    macdSell tech.macd.line tech.macd.signalLine = (0, []) ∧
    (generateSignal rules tech sd nd pd st).reasons.head? =
      some "⚠️ Missing data: RSI, MACD" := by
  obtain ⟨r, ⟨ml, sl, hist⟩, bb, stoc, ax, ma, atr⟩ := tech
  simp only at h1 h2
  subst h1
  subst h2
  exact ⟨rfl, rfl, rfl, rfl, rfl⟩

/-- C3 witness: the all-absent snapshot. -/
theorem missing_category_contributes_zero_witness :
    rsiBuy emptyTech.rsi = (0, []) ∧ rsiSell emptyTech.rsi = (0, []) ∧
    macdBuy emptyTech.macd.line emptyTech.macd.signalLine emptyTech.macd.histogram = (0, []) ∧
    macdSell emptyTech.macd.line emptyTech.macd.signalLine = (0, []) ∧
    (generateSignal defaultRules emptyTech absentSentiment none none none).reasons.head? =
      some "⚠️ Missing data: RSI, MACD" :=
  missing_category_contributes_zero defaultRules emptyTech absentSentiment
    none none none rfl rfl

/-- C4: evaluating the stochastic bonus at the failing input %K = 0.0: the
truthiness test `if stoch_k and stoch_k < 20` treats the present value 0.0
as missing, so no +0.05 bonus and no reason are produced, while a nonzero
%K below 20 earns the bonus and %K above 80 earns the sell-side bonus. -/
theorem stochastic_zero_k_gets_no_bonus :
    stochasticBuy (some ⟨some 0, none⟩) = (0, []) ∧
    stochasticBuy (some ⟨some 19, none⟩) = ((5/100), ["✓ Stochastic oversold (19)"]) ∧
    stochasticSell (some ⟨some 81, none⟩) = ((5/100), ["⚠️ Stochastic overbought (81)"]) := by
  refine ⟨by decide, by decide, by decide⟩

/-- C5: for every snapshot and rule set, if the resolved action is SELL
then the returned risk level is High, regardless of beta, debt-to-equity
and RSI. -/
theorem sell_always_high_risk (rules : Rules) (tech : TechnicalData)
    (sd : SentimentData) (nd : Option NewsData) (pd : Option PriceData)
    (st : Option StatsData)
    (h : (generateSignal rules tech sd nd pd st).signal = "SELL") :
    (generateSignal rules tech sd nd pd st).riskLevel = "High" :=
  resolveBranch_sell_high
    (buyScoreOf rules (extract tech sd pd st)).1
    (sellScoreOf rules (extract tech sd pd st)).1
    (buyScoreOf rules (extract tech sd pd st)).2
    (sellScoreOf rules (extract tech sd pd st)).2
    (extract tech sd pd st).beta (extract tech sd pd st).debtToEquity
    (extract tech sd pd st).rsi h

/-- C5 witness: an overbought, high-risk snapshot that resolves to SELL. -/
theorem sell_always_high_risk_witness :
    (generateSignal defaultRules overboughtTech bearishSentiment none none
      (some riskyStats)).signal = "SELL" ∧
    (generateSignal defaultRules overboughtTech bearishSentiment none none
      (some riskyStats)).riskLevel = "High" :=
  ⟨by decide,
   sell_always_high_risk defaultRules overboughtTech bearishSentiment none none
     (some riskyStats) (by decide)⟩

/-- C6: RSI exactly 30 does not qualify for the strict `rsi < 30` tier; the
category contributes 70% of the 0.25 RSI buy weight (0.175), not the full
weight. -/
theorem rsi_thirty_partial_weight :
    rsiBuy (some 30) = ((25/100) * (7/10), ["○ RSI moderately oversold (30)"]) ∧
    (rsiBuy (some 30)).1 = (175/1000) ∧
    (rsiBuy (some 30)).1 ≠ (25/100) := by
  refine ⟨by decide, by decide, by decide⟩

/-- C7: when the 52-week high equals the 52-week low, the momentum and
overextension categories contribute 0 to both scores and emit no reason;
the guarded position computation returns 0.5 instead of dividing by the
zero range, so no exception arises. -/
theorem degenerate_range_contributes_zero (cp hi lo : Option ℚ) (h : hi = lo) :
    momentumBuy cp hi lo = (0, []) ∧ overextSell cp hi lo = (0, []) := by
  subst h
  refine ⟨?_, ?_⟩
  · simp only [momentumBuy, positionInRange_self]
    split_ifs <;> first | rfl | (exfalso; norm_num at *)
  · simp only [overextSell, positionInRange_self]
    split_ifs <;> first | rfl | (exfalso; norm_num at *)

/-- C7 witness: price 100 with both 52-week bounds equal to 50. -/
theorem degenerate_range_contributes_zero_witness :
    momentumBuy (some 100) (some 50) (some 50) = (0, []) ∧
    overextSell (some 100) (some 50) (some 50) = (0, []) :=
  degenerate_range_contributes_zero (some 100) (some 50) (some 50) rfl

/-- C8: every BUY swing plan floors the stop loss at entry × 0.92, so the
modelled loss from entry to stop never exceeds 8%. -/
theorem buy_stop_floored_at_92pct (price : ℚ) (tech : TechnicalData)
    (stats : Option StatsData) (conf : ℚ) :
    (buyPlan price tech stats conf).entryPrice.getD 0 * (92/100) ≤
      (buyPlan price tech stats conf).stopLoss.getD 0 := by
  simp only [buyPlan, buyStop, Option.getD_some]
  exact le_max_right _ _

/-- C9: the module-level `generate_signal` wrapper never propagates an
engine exception: whenever the engine run raises, the wrapper returns the
fixed record with success false, signal ERROR, confidence 0.5 and risk
level High. -/
theorem wrapper_returns_error_record (symbol : String)
    (tech : Option TechnicalData) (sd : Option SentimentData)
    (nd : Option NewsData) (pd : Option PriceData) (st : Option StatsData)
    (h : isErr (engineRun tech sd nd pd st) = true) :
    (generateSignalModule symbol tech sd nd pd st).success = false ∧
    (generateSignalModule symbol tech sd nd pd st).signal = "ERROR" ∧
    (generateSignalModule symbol tech sd nd pd st).confidence = (5/10) ∧
    (generateSignalModule symbol tech sd nd pd st).riskLevel = "High" := by
  unfold generateSignalModule
  cases he : engineRun tech sd nd pd st with
  | ok r =>
    rw [he] at h
    exact absurd h (by simp [isErr])
  | error e =>
    exact ⟨rfl, rfl, rfl, rfl⟩

/-- C9 witness: a `None` sentiment argument makes the engine raise and the
wrapper return the error record. -/
theorem wrapper_returns_error_record_witness :
    isErr (engineRun (some emptyTech) none none none none) = true ∧
    ((generateSignalModule "TEST" (some emptyTech) none none none none).success = false ∧
     (generateSignalModule "TEST" (some emptyTech) none none none none).signal = "ERROR" ∧
     (generateSignalModule "TEST" (some emptyTech) none none none none).confidence = (5/10) ∧
     (generateSignalModule "TEST" (some emptyTech) none none none none).riskLevel = "High") :=
  ⟨rfl, wrapper_returns_error_record "TEST" (some emptyTech) none none none none rfl⟩

/-- C10 counterexample: with a negative current price (−100), reachable as
a BUY through sentiment and MACD alone, the pullback entry is
price × 0.98 = −98, which exceeds the current price, refuting the claim
that the entry never exceeds the current price. -/
theorem pullback_entry_above_price_counterexample :
    (generateSignal defaultRules macdOnlyTech bullishSentimentB none
      (some negativePrice) none).signal = "BUY" ∧
    ((generateSignal defaultRules macdOnlyTech bullishSentimentB none
      (some negativePrice) none).swingTrade.map (fun p => p.entryPrice)).getD none =
      some (-98 : ℚ) ∧
    (-100 : ℚ) < -98 := by
  refine ⟨by decide, by decide, by norm_num⟩

/-- C10 (amended): for every BUY swing plan with a positive current price,
the computed entry price is at most the current price: it is either the
current price itself or a pullback `min(price × 0.98, SMA-20)`. -/
theorem buy_entry_at_most_price (price : ℚ) (tech : TechnicalData)
    (stats : Option StatsData) (conf : ℚ) (h : 0 < price) :
    (buyPlan price tech stats conf).entryPrice.getD 0 ≤ price := by
  simp only [buyPlan, buyEntry, Option.getD_some]
  split_ifs
  · exact le_refl price
  · exact le_refl price
  · exact le_trans (min_le_left _ _) (by nlinarith)
  · show price * (98/100) ≤ price
    nlinarith

/-- C10 witness: price 100 with no technical levels gives entry 98 ≤ 100. -/
theorem buy_entry_at_most_price_witness :
    (0 : ℚ) < 100 ∧
    (buyPlan 100 emptyTech none (5/10)).entryPrice.getD 0 ≤ 100 :=
  ⟨by norm_num, buy_entry_at_most_price 100 emptyTech none (5/10) (by norm_num)⟩

end MarketPulse
